import Mathlib

/-!
Verification of the pagination state controller in `src/esm/use-swr-pages.js`
(`useSWRPages`). The controller's state is the React state of the hook:
`pageCount`, `pageOffsets` (the cursor array), `pageSWRs` (the per-slot fetch
results), the `emptyPageRef` flag, plus the external persisted store (`cache`)
and the process-wide `pageCacheMap` entry for this key. Operations are
`loadMore`, `resetPages`, the deferred effect of `getWithSWR` (the spec's
`ReportFetchResult`), and the `Page` render wrapper.
-/

namespace SWRPages

/-- A JavaScript value as it appears in the cursor array `pageOffsets` and in
the `data` / `error` fields of a fetch result: `undefined`, `null`, or a
defined value (opaque; identity modelled by a numeric token, `!==` is
inequality of tokens). -/
inductive JSVal where
| undef : JSVal
| null : JSVal
| cursor : Nat → JSVal
deriving DecidableEq, Repr

/-- The object stored into `pageSWRs[id]` (lines 140-146): the five fields
copied off the reported SWR object. `revalidate` and `mutate` are function
handles, compared by reference identity, modelled as numeric tokens. -/
structure SWRResult where
  data : JSVal
  error : JSVal
  revalidate : Nat
  isValidating : Bool
  mutate : Nat
deriving DecidableEq, Repr

/-- What a call of the caller-supplied page function returns (line 96):
a nullish / falsy placeholder, a single element (truthy, no `length`
property), or an array of items. -/
inductive RenderOutput where
| nullish : RenderOutput
| element : RenderOutput
| items : List Nat → RenderOutput
deriving DecidableEq, Repr

/-- One entry of the process-wide `pageCacheMap` list for this key
(lines 177-181); the rendered `component` is opaque, so an entry is
modelled by the two fields the cache is keyed on. -/
structure PageCacheEntry where
  offset : JSVal
  pageFnId : Nat
deriving DecidableEq, Repr

/-- JS array read `l[i]`: out-of-range reads and holes give `undefined`,
modelled by the default `d` (`JSVal.undef` for `pageOffsets`, `none` for
`pageSWRs`). -/
def jsGet {α : Type} (l : List α) (d : α) (i : Nat) : α :=
  match l, i with
  | [], _ => d
  | x :: _, 0 => x
  | _ :: t, i + 1 => jsGet t d i

/-- JS array index assignment `l[i] = v` on a copy: in-range assignment
replaces, out-of-range assignment pads intermediate positions with holes
(the default `d`). -/
def jsSet {α : Type} (l : List α) (d : α) (i : Nat) (v : α) : List α :=
  match l, i with
  | [], 0 => [v]
  | [], i + 1 => d :: jsSet [] d i v
  | _ :: t, 0 => v :: t
  | x :: t, i + 1 => x :: jsSet t d i v

/-- The full observable state of one `useSWRPages` controller.
`storedCount` / `storedOffsets` are the persisted store cells under
`pageCountKey` / `pageOffsetKey`; `pageCache` is the `pageCacheMap` entry
for this key. `lastRender` is a ghost field recording the output of the
most recent `Page` render, used only to state properties. -/
structure PState where
  pageCount : Nat
  pageOffsets : List JSVal
  pageSWRs : List (Option SWRResult)
  emptyPage : Bool
  lastRender : Option RenderOutput
  storedCount : Option Nat
  storedOffsets : Option (List JSVal)
  pageCache : Option (List PageCacheEntry)
deriving DecidableEq, Repr

/-- Line 117: `const isReachingEnd = pageOffsets[pageCount] === null`. -/
def isReachingEnd (s : PState) : Bool :=
  jsGet s.pageOffsets JSVal.undef s.pageCount == JSVal.null

/-- Line 118: `const isLoadingMore = pageCount > pageOffsets.length`. -/
def isLoadingMore (s : PState) : Bool :=
  decide (s.pageOffsets.length < s.pageCount)

/-- Line 119: `const isEmpty = isReachingEnd && pageCount === 1 && emptyPageRef.current`. -/
def isEmpty (s : PState) : Bool :=
  isReachingEnd s && (s.pageCount == 1) && s.emptyPage

/-- Lines 120-127: `loadMore` returns early when `isLoadingMore` or
`isReachingEnd`; otherwise sets `pageCount` to `c + 1` and persists it via
`cache.set(pageCountKey, c + 1)`. -/
def loadMore (s : PState) : PState :=
  if isLoadingMore s || isReachingEnd s then s
  else { s with pageCount := s.pageCount + 1, storedCount := some (s.pageCount + 1) }

/-- Lines 102-113: `resetPages` empties `pageSWRs`, sets and persists
`pageCount = 1` and `pageOffsets = [null]`, and sets the `pageCacheMap`
entry for this key to `[]`. -/
def resetPages (s : PState) : PState :=
  { s with pageSWRs := []
         , pageCount := 1
         , storedCount := some 1
         , pageOffsets := [JSVal.null]
         , storedOffsets := some [JSVal.null]
         , pageCache := some ([] : List PageCacheEntry) }

/-- Lines 132-135: the identity gate of `getWithSWR`. The deferred effect is
scheduled only when no result is stored for the slot (`!pageSWRs[id]`) or
one of `data`, `error`, `revalidate` differs by reference identity. -/
def gateOpen : Option SWRResult → SWRResult → Bool
| none, _ => true
| some r, swr =>
    r.data != swr.data || r.error != swr.error || r.revalidate != swr.revalidate

/-- Lines 151-159: if the next cursor differs from `pageOffsets[i]`
(`!==`), write it at index `i` on a copy of the array and persist the copy
via `cache.set(pageOffsetKey, _arr)`; otherwise leave the array and the
store untouched. -/
def updateOffsets (s : PState) (i : Nat) (nc : JSVal) : PState :=
  if jsGet s.pageOffsets JSVal.undef i ≠ nc then
    { s with pageOffsets := jsSet s.pageOffsets JSVal.undef i nc
           , storedOffsets := some (jsSet s.pageOffsets JSVal.undef i nc) }
  else s

/-- Lines 131-164: the deferred effect of `getWithSWR(id)(swr)` — the spec's
`ReportFetchResult(slotIndex, fetchResult)`. If the identity gate is open,
store the result at slot `id`; then, when `typeof swr.data !== 'undefined'`,
compute `newPageOffset = SWRToOffset(swr, id)` (the `derive` argument) and
run the cursor update at index `id + 1`. If the gate is closed nothing
happens. -/
def reportFetchResult (derive : SWRResult → Nat → JSVal) (s : PState)
    (id : Nat) (swr : SWRResult) : PState :=
  if gateOpen (jsGet s.pageSWRs none id) swr then
    if swr.data ≠ JSVal.undef then
      updateOffsets { s with pageSWRs := jsSet s.pageSWRs none id (some swr) }
        (id + 1) (derive swr id)
    else { s with pageSWRs := jsSet s.pageSWRs none id (some swr) }
  else s

/-- Lines 96-99: JS truthiness of `dataList && !dataList.length`. A nullish
or falsy return leaves a falsy value; an array is truthy and the flag is
`!length`, so true exactly for `[]`; a non-array element is truthy and has
no `length` property (`undefined`), so the flag is `!undefined = true`. -/
def jsEmptyFlag : RenderOutput → Bool
| RenderOutput.nullish => false
| RenderOutput.element => true
| RenderOutput.items l => l.isEmpty

/-- Lines 94-101: the `Page` wrapper renders the page function and records
`emptyPageRef.current = dataList && !dataList.length`. The ghost field
`lastRender` records the output itself. -/
def renderPage (s : PState) (o : RenderOutput) : PState :=
  { s with emptyPage := jsEmptyFlag o, lastRender := some o }

/-- Lines 87-91: initialization with the default state — an empty persisted
store, so `pageCount = 1`, `pageOffsets = [null]`, `pageSWRs = []`,
`emptyPageRef.current = false`, and no `pageCacheMap` entry yet. -/
def defaultInit : PState :=
  { pageCount := 1
  , pageOffsets := [JSVal.null]
  , pageSWRs := []
  , emptyPage := false
  , lastRender := none
  , storedCount := none
  , storedOffsets := none
  , pageCache := none }

/-- The states of a controller initialized with the default state, closed
under the four operations. -/
inductive Reachable : PState → Prop where
| init : Reachable defaultInit
| load {s : PState} : Reachable s → Reachable (loadMore s)
| reset {s : PState} : Reachable s → Reachable (resetPages s)
| report {s : PState} (derive : SWRResult → Nat → JSVal) (id : Nat)
    (swr : SWRResult) : Reachable s → Reachable (reportFetchResult derive s id swr)
| render {s : PState} (o : RenderOutput) : Reachable s → Reachable (renderPage s o)

/-! ### Array lemmas -/

theorem jsGet_jsSet_self {α : Type} (l : List α) (d : α) (i : Nat) (v : α) :
    jsGet (jsSet l d i v) d i = v := by
  induction l generalizing i with
  | nil =>
      induction i with
      | zero => rfl
      | succ n ih => simpa [jsSet, jsGet] using ih
  | cons x t ih =>
      cases i with
      | zero => rfl
      | succ n => simpa [jsSet, jsGet] using ih n

theorem jsGet_jsSet_ne {α : Type} (l : List α) (d : α) (i j : Nat) (v : α)
    (h : j ≠ i) : jsGet (jsSet l d i v) d j = jsGet l d j := by
  induction l generalizing i j with
  | nil =>
      induction i generalizing j with
      | zero =>
          cases j with
          | zero => exact absurd rfl h
          | succ n => simp [jsSet, jsGet]
      | succ m ih =>
          cases j with
          | zero => rfl
          | succ n => simpa [jsSet, jsGet] using ih n (by omega)
  | cons x t ih =>
      cases i with
      | zero =>
          cases j with
          | zero => exact absurd rfl h
          | succ n => rfl
      | succ m =>
          cases j with
          | zero => rfl
          | succ n => simpa [jsSet, jsGet] using ih m n (by omega)

theorem jsSet_length {α : Type} (l : List α) (d : α) (i : Nat) (v : α) :
    (jsSet l d i v).length = max l.length (i + 1) := by
  induction l generalizing i with
  | nil =>
      induction i with
      | zero => rfl
      | succ n ih => simp [jsSet, List.length] at ih ⊢; omega
  | cons x t ih =>
      cases i with
      | zero => simp [jsSet, List.length]
      | succ n => simp [jsSet, List.length, ih n]; omega

theorem jsGet_of_len_le {α : Type} (l : List α) (d : α) (i : Nat)
    (h : l.length ≤ i) : jsGet l d i = d := by
  induction l generalizing i with
  | nil => rfl
  | cons x t ih =>
      cases i with
      | zero => simp at h
      | succ n => exact ih n (by simpa using h)

theorem jsSet_cons_succ {α : Type} (x : α) (t : List α) (d : α) (i : Nat) (v : α) :
    jsSet (x :: t) d (i + 1) v = x :: jsSet t d i v := rfl

/-! ### Frame lemmas for the report effect -/

theorem updateOffsets_pageSWRs (s : PState) (i : Nat) (nc : JSVal) :
    (updateOffsets s i nc).pageSWRs = s.pageSWRs := by
  unfold updateOffsets; split <;> rfl

theorem report_frame (derive : SWRResult → Nat → JSVal) (s : PState)
    (id : Nat) (swr : SWRResult) :
    (reportFetchResult derive s id swr).pageCount = s.pageCount
    ∧ (reportFetchResult derive s id swr).storedCount = s.storedCount
    ∧ (reportFetchResult derive s id swr).emptyPage = s.emptyPage
    ∧ (reportFetchResult derive s id swr).pageCache = s.pageCache
    ∧ (reportFetchResult derive s id swr).lastRender = s.lastRender := by
  refine ⟨?_, ?_, ?_, ?_, ?_⟩ <;>
    (unfold reportFetchResult updateOffsets
     split <;> first
     | rfl
     | (split <;> first | rfl | (split <;> rfl)))

theorem report_pageOffsets_cases (derive : SWRResult → Nat → JSVal) (s : PState)
    (id : Nat) (swr : SWRResult) :
    (reportFetchResult derive s id swr).pageOffsets = s.pageOffsets
    ∨ (reportFetchResult derive s id swr).pageOffsets
        = jsSet s.pageOffsets JSVal.undef (id + 1) (derive swr id) := by
  unfold reportFetchResult updateOffsets
  split
  · split
    · split
      · right; rfl
      · left; rfl
    · left; rfl
  · left; rfl

theorem report_pageSWRs_cases (derive : SWRResult → Nat → JSVal) (s : PState)
    (id : Nat) (swr : SWRResult) :
    (reportFetchResult derive s id swr).pageSWRs = s.pageSWRs
    ∨ (reportFetchResult derive s id swr).pageSWRs
        = jsSet s.pageSWRs none id (some swr) := by
  unfold reportFetchResult updateOffsets
  split
  · split
    · split
      · right; rfl
      · right; rfl
    · right; rfl
  · left; rfl

theorem report_of_gateClosed (derive : SWRResult → Nat → JSVal) (s : PState)
    (id : Nat) (swr : SWRResult)
    (h : gateOpen (jsGet s.pageSWRs none id) swr = false) :
    reportFetchResult derive s id swr = s := by
  unfold reportFetchResult
  simp [h]

theorem report_pageSWRs_of_gateOpen (derive : SWRResult → Nat → JSVal) (s : PState)
    (id : Nat) (swr : SWRResult)
    (h : gateOpen (jsGet s.pageSWRs none id) swr = true) :
    (reportFetchResult derive s id swr).pageSWRs
      = jsSet s.pageSWRs none id (some swr) := by
  unfold reportFetchResult
  simp only [h, if_true]
  split
  · rw [updateOffsets_pageSWRs]
  · rfl

/-! ### Reachability invariant -/

theorem reachable_inv {s : PState} (h : Reachable s) :
    s.pageOffsets.head? = some JSVal.null
    ∧ s.pageCount ≤ s.pageOffsets.length + 1 := by
  induction h with
  | init => exact ⟨rfl, by decide⟩
  | load hr ih =>
      rename_i s
      unfold loadMore
      split
      · exact ih
      · rename_i hg
        rw [Bool.or_eq_true, not_or] at hg
        have h1 : ¬ s.pageOffsets.length < s.pageCount := by
          simpa [isLoadingMore] using hg.1
        exact ⟨ih.1, by simp; omega⟩
  | reset hr ih => exact ⟨rfl, by simp [resetPages]⟩
  | report derive id swr hr ih =>
      rename_i s
      obtain ⟨hh, hc⟩ := ih
      obtain ⟨x, t, hxt⟩ : ∃ x t, s.pageOffsets = x :: t := by
        cases hs : s.pageOffsets with
        | nil => rw [hs] at hh; simp at hh
        | cons a b => exact ⟨a, b, rfl⟩
      have hx : x = JSVal.null := by rw [hxt] at hh; simpa using hh
      rcases report_pageOffsets_cases derive s id swr with ho | ho
      · constructor
        · rw [ho]; exact hh
        · rw [(report_frame derive s id swr).1, ho]; exact hc
      · constructor
        · rw [ho, hxt, jsSet_cons_succ]; simp [hx]
        · rw [(report_frame derive s id swr).1, ho, jsSet_length]
          omega
  | render o hr ih => exact ih

theorem report_eq_dataUndef (derive : SWRResult → Nat → JSVal) (s : PState)
    (id : Nat) (swr : SWRResult)
    (h : gateOpen (jsGet s.pageSWRs none id) swr = true)
    (hd : swr.data = JSVal.undef) :
    reportFetchResult derive s id swr
      = { s with pageSWRs := jsSet s.pageSWRs none id (some swr) } := by
  unfold reportFetchResult
  rw [if_pos h, if_neg (by simp [hd])]

theorem report_eq_newCursor (derive : SWRResult → Nat → JSVal) (s : PState)
    (id : Nat) (swr : SWRResult)
    (h : gateOpen (jsGet s.pageSWRs none id) swr = true)
    (hd : swr.data ≠ JSVal.undef)
    (hne : jsGet s.pageOffsets JSVal.undef (id + 1) ≠ derive swr id) :
    reportFetchResult derive s id swr
      = { s with pageSWRs := jsSet s.pageSWRs none id (some swr)
               , pageOffsets := jsSet s.pageOffsets JSVal.undef (id + 1) (derive swr id)
               , storedOffsets := some (jsSet s.pageOffsets JSVal.undef (id + 1) (derive swr id)) } := by
  unfold reportFetchResult updateOffsets
  rw [if_pos h, if_pos hd, if_pos hne]

theorem report_eq_sameCursor (derive : SWRResult → Nat → JSVal) (s : PState)
    (id : Nat) (swr : SWRResult)
    (h : gateOpen (jsGet s.pageSWRs none id) swr = true)
    (hd : swr.data ≠ JSVal.undef)
    (heq : jsGet s.pageOffsets JSVal.undef (id + 1) = derive swr id) :
    reportFetchResult derive s id swr
      = { s with pageSWRs := jsSet s.pageSWRs none id (some swr) } := by
  unfold reportFetchResult updateOffsets
  rw [if_pos h, if_pos hd, if_neg (by simp [heq])]

/-! ### Example values used by witnesses and counterexamples -/

/-- A fetch result whose `data` is defined (identity token 10). -/
def exSwrA : SWRResult := ⟨JSVal.cursor 10, JSVal.undef, 0, false, 0⟩

/-- A fetch result with a different `data` identity (token 11). -/
def exSwrB : SWRResult := ⟨JSVal.cursor 11, JSVal.undef, 0, false, 0⟩

/-- An example `SWRToOffset`: for the first result it signals no next page
(`null`), for any other it derives the cursor 1. -/
def exDerive : SWRResult → Nat → JSVal :=
  fun swr _ => if swr.data = JSVal.cursor 10 then JSVal.null else JSVal.cursor 1

/-- The state after slot 0 reports `exSwrA` from the default initial state:
its next cursor is `null`, so `pageOffsets = [null, null]` and the end is
reached. -/
def exEndState : PState := reportFetchResult exDerive defaultInit 0 exSwrA

/-! ### Claims -/

/-- C1: in every observable state of a controller initialized with the
default state (so in particular along every sequence of `loadMore` calls
with no fetch completions interleaved), `pageCount` never exceeds
`pageOffsets.length + 1`, and the derived flag `isLoadingMore` is true
exactly when `pageCount > pageOffsets.length`. -/
theorem spec_c1_pageCount_bound {s : PState} (h : Reachable s) :
    s.pageCount ≤ s.pageOffsets.length + 1
    ∧ (isLoadingMore s = true ↔ s.pageOffsets.length < s.pageCount) :=
  ⟨(reachable_inv h).2, by simp [isLoadingMore]⟩

theorem spec_c1_witness :
    (loadMore defaultInit).pageCount ≤ (loadMore defaultInit).pageOffsets.length + 1 :=
  (spec_c1_pageCount_bound (Reachable.load Reachable.init)).1

/-- C2: `loadMore` is a no-op (the state is completely unchanged, nothing
persisted) when `isLoadingMore` or `isReachingEnd` holds; otherwise it
increments `pageCount` by exactly 1 and persists the new count, and two
`loadMore` calls in succession before the outstanding fetch resolves (no
cursor derived yet beyond `pageCount`, i.e. `pageOffsets.length ≤ pageCount`)
increase `pageCount` by exactly 1, not 2. -/
theorem spec_c2_loadMore (s : PState) :
    ((isLoadingMore s || isReachingEnd s) = true → loadMore s = s)
    ∧ ((isLoadingMore s || isReachingEnd s) = false →
        loadMore s = { s with pageCount := s.pageCount + 1
                            , storedCount := some (s.pageCount + 1) })
    ∧ (s.pageOffsets.length ≤ s.pageCount →
        (loadMore (loadMore s)).pageCount = (loadMore s).pageCount) := by
  refine ⟨?_, ?_, ?_⟩
  · intro hg
    simp [loadMore, hg]
  · intro hg
    simp [loadMore, hg]
  · intro hlen
    by_cases hg : (isLoadingMore s || isReachingEnd s) = true
    · have h1 : loadMore s = s := by simp [loadMore, hg]
      rw [h1, h1]
    · rw [Bool.not_eq_true] at hg
      have h1 : loadMore s = { s with pageCount := s.pageCount + 1
                                    , storedCount := some (s.pageCount + 1) } := by
        simp [loadMore, hg]
      rw [h1]
      have h2 : isLoadingMore { s with pageCount := s.pageCount + 1
                                     , storedCount := some (s.pageCount + 1) } = true := by
        simp only [isLoadingMore, decide_eq_true_eq]
        omega
      simp [loadMore, h2]

theorem spec_c2_witness :
    loadMore defaultInit
      = { defaultInit with pageCount := defaultInit.pageCount + 1
                         , storedCount := some (defaultInit.pageCount + 1) }
    ∧ (loadMore (loadMore defaultInit)).pageCount = (loadMore defaultInit).pageCount :=
  ⟨(spec_c2_loadMore defaultInit).2.1 (by decide),
   (spec_c2_loadMore defaultInit).2.2 (by decide)⟩

/-- C4: after `resetPages`, regardless of the prior state, `pageCount = 1`,
`pageOffsets = [null]`, both values are written to the persisted store, and
the page-handle cache entry for this key is the empty list. -/
theorem spec_c4_reset (s : PState) :
    (resetPages s).pageCount = 1
    ∧ (resetPages s).pageOffsets = [JSVal.null]
    ∧ (resetPages s).storedCount = some 1
    ∧ (resetPages s).storedOffsets = some [JSVal.null]
    ∧ (resetPages s).pageCache = some ([] : List PageCacheEntry) :=
  ⟨rfl, rfl, rfl, rfl, rfl⟩

/-- C8: in every state of a controller initialized with the default state
and driven by any sequence of `loadMore`, `resetPages`, report and render
operations, `pageOffsets[0]` is `null`. -/
theorem spec_c8_cursor0_null {s : PState} (h : Reachable s) :
    jsGet s.pageOffsets JSVal.undef 0 = JSVal.null := by
  have h1 := (reachable_inv h).1
  cases hs : s.pageOffsets with
  | nil => rw [hs] at h1; simp at h1
  | cons a b =>
      rw [hs] at h1
      simp at h1
      simpa [jsGet] using h1

theorem spec_c8_witness :
    jsGet exEndState.pageOffsets JSVal.undef 0 = JSVal.null :=
  spec_c8_cursor0_null (Reachable.report exDerive 0 exSwrA Reachable.init)

/-- C9: in every state, `isLoadingMore` and `isReachingEnd` are never both
true: when `pageCount > pageOffsets.length` the out-of-range read
`pageOffsets[pageCount]` yields `undefined`, not `null`. -/
theorem spec_c9_flags_exclusive (s : PState) :
    (isLoadingMore s && isReachingEnd s) = false := by
  by_cases h : s.pageOffsets.length < s.pageCount
  · have hu : jsGet s.pageOffsets JSVal.undef s.pageCount = JSVal.undef :=
      jsGet_of_len_le _ _ _ (Nat.le_of_lt h)
    simp [isReachingEnd, hu]
  · simp [isLoadingMore, h]

/-- C3: when the report effect runs (the identity gate of lines 132-135 is
open) with a fetch result whose `data` is defined, it computes
`newPageOffset = derive swr id`, and exactly when `pageOffsets[id+1]`
differs from it the cursor at index `id+1` is set to it and the updated
cursor array is persisted; when `data` is undefined the cursor array and
its persisted copy are left unchanged. -/
theorem spec_c3_report_cursors (derive : SWRResult → Nat → JSVal) (s : PState)
    (id : Nat) (swr : SWRResult)
    (hgate : gateOpen (jsGet s.pageSWRs none id) swr = true) :
    (swr.data ≠ JSVal.undef →
      (jsGet s.pageOffsets JSVal.undef (id + 1) ≠ derive swr id →
        (reportFetchResult derive s id swr).pageOffsets
          = jsSet s.pageOffsets JSVal.undef (id + 1) (derive swr id)
        ∧ jsGet (reportFetchResult derive s id swr).pageOffsets JSVal.undef (id + 1)
            = derive swr id
        ∧ (reportFetchResult derive s id swr).storedOffsets
            = some (reportFetchResult derive s id swr).pageOffsets)
      ∧ (jsGet s.pageOffsets JSVal.undef (id + 1) = derive swr id →
        (reportFetchResult derive s id swr).pageOffsets = s.pageOffsets
        ∧ (reportFetchResult derive s id swr).storedOffsets = s.storedOffsets))
    ∧ (swr.data = JSVal.undef →
        (reportFetchResult derive s id swr).pageOffsets = s.pageOffsets
        ∧ (reportFetchResult derive s id swr).storedOffsets = s.storedOffsets) := by
  refine ⟨?_, ?_⟩
  · intro hd
    refine ⟨?_, ?_⟩
    · intro hne
      rw [report_eq_newCursor derive s id swr hgate hd hne]
      exact ⟨rfl, jsGet_jsSet_self _ _ _ _, rfl⟩
    · intro heq
      rw [report_eq_sameCursor derive s id swr hgate hd heq]
      exact ⟨rfl, rfl⟩
  · intro hd
    rw [report_eq_dataUndef derive s id swr hgate hd]
    exact ⟨rfl, rfl⟩

theorem spec_c3_witness :
    (reportFetchResult exDerive defaultInit 0 exSwrA).pageOffsets
      = jsSet defaultInit.pageOffsets JSVal.undef 1 (exDerive exSwrA 0)
    ∧ jsGet (reportFetchResult exDerive defaultInit 0 exSwrA).pageOffsets JSVal.undef 1
        = exDerive exSwrA 0
    ∧ (reportFetchResult exDerive defaultInit 0 exSwrA).storedOffsets
        = some (reportFetchResult exDerive defaultInit 0 exSwrA).pageOffsets :=
  ((spec_c3_report_cursors exDerive defaultInit 0 exSwrA (by decide)).1
    (by decide)).1 (by decide)

/-- C6: the report effect is idempotent for identical results: running it a
second time with any fetch result whose `data`, `error` and `revalidate`
identities equal those of the result stored by the first call — the second
result may differ in `isValidating` or `mutate`, which the identity gate
ignores — produces no additional state change at all: no stored-result
write, no cursor write, no persistence. -/
theorem spec_c6_report_idempotent (derive : SWRResult → Nat → JSVal)
    (s : PState) (id : Nat) (swr swr2 : SWRResult)
    (hd : swr2.data = swr.data) (he : swr2.error = swr.error)
    (hr : swr2.revalidate = swr.revalidate) :
    reportFetchResult derive (reportFetchResult derive s id swr) id swr2
      = reportFetchResult derive s id swr := by
  by_cases h : gateOpen (jsGet s.pageSWRs none id) swr = true
  · have h2 : jsGet (reportFetchResult derive s id swr).pageSWRs none id
        = some swr := by
      rw [report_pageSWRs_of_gateOpen derive s id swr h]
      exact jsGet_jsSet_self _ _ _ _
    have h3 : gateOpen (jsGet (reportFetchResult derive s id swr).pageSWRs none id)
        swr2 = false := by
      rw [h2]
      simp [gateOpen, hd, he, hr]
    exact report_of_gateClosed derive _ id swr2 h3
  · rw [Bool.not_eq_true] at h
    rw [report_of_gateClosed derive s id swr h]
    apply report_of_gateClosed
    cases hst : jsGet s.pageSWRs none id with
    | none => rw [hst] at h; simp [gateOpen] at h
    | some r =>
        rw [hst] at h
        simp only [gateOpen, Bool.or_eq_false_iff, bne_eq_false_iff_eq] at h ⊢
        exact ⟨⟨by rw [hd]; exact h.1.1, by rw [he]; exact h.1.2⟩,
               by rw [hr]; exact h.2⟩

/-- A fetch result with the same `data` / `error` / `revalidate` identities
as `exSwrA` but different `isValidating` and `mutate` — the identity gate
at lines 132-135 ignores these two fields. -/
def exSwrA2 : SWRResult := ⟨JSVal.cursor 10, JSVal.undef, 0, true, 7⟩

theorem spec_c6_witness :
    reportFetchResult exDerive (reportFetchResult exDerive defaultInit 0 exSwrA)
        0 exSwrA2
      = reportFetchResult exDerive defaultInit 0 exSwrA :=
  spec_c6_report_idempotent exDerive defaultInit 0 exSwrA exSwrA2
    (by decide) (by decide) (by decide)

/-- C10: the report effect modifies at most the stored fetch result for
slot `id` and the cursor at index `id + 1`: `pageCount`, every cursor at an
index other than `id + 1`, and every other slot's stored fetch result are
unchanged by the call. -/
theorem spec_c10_report_localized (derive : SWRResult → Nat → JSVal)
    (s : PState) (id : Nat) (swr : SWRResult) :
    (reportFetchResult derive s id swr).pageCount = s.pageCount
    ∧ (∀ j, j ≠ id + 1 →
        jsGet (reportFetchResult derive s id swr).pageOffsets JSVal.undef j
          = jsGet s.pageOffsets JSVal.undef j)
    ∧ (∀ j, j ≠ id →
        jsGet (reportFetchResult derive s id swr).pageSWRs none j
          = jsGet s.pageSWRs none j) := by
  refine ⟨(report_frame derive s id swr).1, ?_, ?_⟩
  · intro j hj
    rcases report_pageOffsets_cases derive s id swr with ho | ho
    · rw [ho]
    · rw [ho, jsGet_jsSet_ne _ _ _ _ _ hj]
  · intro j hj
    rcases report_pageSWRs_cases derive s id swr with hw | hw
    · rw [hw]
    · rw [hw, jsGet_jsSet_ne _ _ _ _ _ hj]

theorem spec_c10_witness :
    jsGet (reportFetchResult exDerive defaultInit 0 exSwrA).pageOffsets JSVal.undef 0
      = jsGet defaultInit.pageOffsets JSVal.undef 0
    ∧ jsGet (reportFetchResult exDerive defaultInit 0 exSwrA).pageSWRs none 1
        = jsGet defaultInit.pageSWRs none 1 :=
  ⟨(spec_c10_report_localized exDerive defaultInit 0 exSwrA).2.1 0 (by decide),
   (spec_c10_report_localized exDerive defaultInit 0 exSwrA).2.2 1 (by decide)⟩

/-- C5 counterexample: in `exEndState` the end is reached
(`pageOffsets[pageCount] = null`, so `isReachingEnd` is true), yet a
subsequent report for slot 0 with a result of different data identity whose
derived next cursor is non-null makes `isReachingEnd` false again, with no
`resetPages` in between — so `isReachingEnd` does not remain true under
every subsequent operation until reset. -/
theorem spec_c5_counterexample :
    isReachingEnd exEndState = true
    ∧ isReachingEnd (reportFetchResult exDerive exEndState 0 exSwrB) = false := by
  decide

/-- C5 (amended): `isReachingEnd` is true exactly when
`pageOffsets[pageCount] = null` (the last-fetched slot derived a null next
cursor), and once true it remains true under every subsequent `loadMore`
(which is then a no-op) and every page render until `resetPages`; a report
for slot `pageCount - 1` that stores a result of different identity and
derives a non-null next cursor can, however, make it false again. -/
theorem spec_c5_reachingEnd (s : PState) :
    (isReachingEnd s = true
      ↔ jsGet s.pageOffsets JSVal.undef s.pageCount = JSVal.null)
    ∧ (isReachingEnd s = true → loadMore s = s)
    ∧ (∀ o, isReachingEnd (renderPage s o) = isReachingEnd s) := by
  refine ⟨?_, ?_, fun o => rfl⟩
  · simp [isReachingEnd]
  · intro h
    simp [loadMore, h]

theorem spec_c5_witness :
    jsGet exEndState.pageOffsets JSVal.undef exEndState.pageCount = JSVal.null
    ∧ loadMore exEndState = exEndState :=
  ⟨(spec_c5_reachingEnd exEndState).1.mp (by decide),
   (spec_c5_reachingEnd exEndState).2.1 (by decide)⟩

/-- The state after the `Page` wrapper renders a non-sequence element (a
placeholder) in the end-reached state `exEndState`: line 99 sets
`emptyPageRef.current = dataList && !dataList.length`, and a non-array
element is truthy with `length` undefined, so the flag becomes true
although no item sequence was rendered at all. -/
def exPlaceholderState : PState := renderPage exEndState RenderOutput.element

/-- C7 counterexample: in `exPlaceholderState` exactly one page has been
requested and it has reached its end, and `isEmpty` is true, yet slot 0's
last rendered output was a placeholder element, not a present-but-empty
item sequence — refuting the claimed equivalence. -/
theorem spec_c7_counterexample :
    ¬ (isEmpty exPlaceholderState = true ↔
        (exPlaceholderState.pageCount = 1
         ∧ jsGet exPlaceholderState.pageOffsets JSVal.undef 1 = JSVal.null
         ∧ exPlaceholderState.lastRender = some (RenderOutput.items []))) := by
  decide

/-- C7 (amended): `isEmpty` is true iff exactly one page has been requested
(`pageCount = 1`), it has reached its end (`pageOffsets[1] = null`), and
the empty-page flag is set; the flag records that the last rendered output
was truthy with a falsy `length` — an empty item sequence, but equally any
truthy non-sequence output such as a placeholder element — not solely a
present-but-empty item sequence. -/
theorem spec_c7_isEmpty (s : PState) :
    (isEmpty s = true ↔
      s.pageCount = 1
      ∧ jsGet s.pageOffsets JSVal.undef 1 = JSVal.null
      ∧ s.emptyPage = true)
    ∧ (∀ o, (renderPage s o).emptyPage = jsEmptyFlag o)
    ∧ jsEmptyFlag (RenderOutput.items []) = true
    ∧ jsEmptyFlag RenderOutput.element = true
    ∧ jsEmptyFlag RenderOutput.nullish = false := by
  refine ⟨?_, fun o => rfl, rfl, rfl, rfl⟩
  unfold isEmpty isReachingEnd
  constructor
  · intro h
    simp only [Bool.and_eq_true, beq_iff_eq] at h
    obtain ⟨⟨h1, h2⟩, h3⟩ := h
    refine ⟨h2, ?_, h3⟩
    rw [h2] at h1
    exact h1
  · rintro ⟨h1, h2, h3⟩
    simp [h1, h2, h3]

theorem spec_c7_witness : isEmpty exPlaceholderState = true :=
  (spec_c7_isEmpty exPlaceholderState).1.mpr (by decide)

end SWRPages
